import Mathlib

/-!
Verification development for the element-screenshot-api capture core.

The screenshot pipeline (src/screenshot.js: `takeScreenshot`,
`captureFullPage`, `captureMultipleSelectors`, `captureSingleSelector`),
the option merge, the filename generation (also src/utils.js
`generateUniqueFilename`) and the HTTP error classifier
(src/server.js, POST /screenshot catch block) are shallowly embedded as
executable Lean definitions.  External effects (puppeteer, the file
system, the clock, Math.random) are modelled by an explicit environment
record `Env` passed to the pipeline; the pipeline itself is a pure
function from this environment to an event trace plus a result.
-/

namespace ElementScreenshot

/-- JS `String.prototype.includes`: substring containment on the
character lists of the two strings. -/
def strContains (s pat : String) : Bool :=
  decide (List.IsInfix pat.data s.data)

/-- Decimal digit character, `48 + d` is the code point of the digit. -/
def digitChar (d : Nat) : Char := Char.ofNat (48 + d)

/-- Fuel-indexed most-significant-first decimal digit list of a number,
as JS template interpolation `${n}` renders a nonnegative integer. -/
def decDigits : Nat → Nat → List Char
  | 0, _ => []
  | fuel + 1, n => if n = 0 then [] else decDigits fuel (n / 10) ++ [digitChar (n % 10)]

/-- Decimal rendering of a natural number, as JS `${n}`. -/
def decStr (n : Nat) : String :=
  if n = 0 then "0" else String.mk (decDigits (n + 1) n)

/-- Reads a decimal digit list back to the number it denotes. -/
def decVal (l : List Char) : Nat :=
  l.foldl (fun a c => a * 10 + (c.toNat - 48)) 0

theorem digitChar_toNat {d : Nat} (hd : d < 10) : (digitChar d).toNat = 48 + d := by
  interval_cases d <;> rfl

theorem decVal_decDigits : ∀ fuel n, n < fuel → decVal (decDigits fuel n) = n := by
  intro fuel
  induction fuel with
  | zero => intro n h; omega
  | succ fuel ih =>
    intro n h
    by_cases hn : n = 0
    · simp [decDigits, hn, decVal]
    · have hdiv : n / 10 < n := Nat.div_lt_self (Nat.pos_of_ne_zero hn) (by omega)
      have hlt : n / 10 < fuel := by omega
      have hmod : n % 10 < 10 := Nat.mod_lt _ (by omega)
      have hdm := Nat.div_add_mod n 10
      have hchar : (digitChar (n % 10)).toNat = 48 + n % 10 := digitChar_toNat hmod
      simp only [decDigits, if_neg hn, decVal, List.foldl_append, List.foldl_cons,
        List.foldl_nil]
      have hih := ih (n / 10) hlt
      simp only [decVal] at hih
      rw [hih, hchar]
      omega

theorem decVal_decStr (n : Nat) : decVal (decStr n).data = n := by
  by_cases hn : n = 0
  · subst hn; decide
  · simp only [decStr, if_neg hn]
    exact decVal_decDigits (n + 1) n (by omega)

theorem decStr_inj {m n : Nat} (h : decStr m = decStr n) : m = n := by
  have := congrArg (fun s => decVal s.data) h
  simpa [decVal_decStr] using this

/-- Hexadecimal digit character. -/
def hexChar (d : Nat) : Char :=
  if d < 10 then Char.ofNat (48 + d) else Char.ofNat (87 + d)

/-- Fixed-width rendering of `n mod 16^8` as eight hex characters. -/
def hex8 (n : Nat) : String :=
  String.mk ((List.range 8).map (fun k => hexChar (n / 16 ^ (7 - k) % 16)))

/-- The code derives `crypto.createHash('md5').update(s).digest('hex').substring(0, 8)`
from a string: an eight-hex-character digest.  The md5 compression
function itself is external (node `crypto`); it is modelled here by a
deterministic eight-hex-character digest of the string, which is the
only property of the digest the capture code relies on (determinism and
fixed width 8). -/
def md5_8 (s : String) : String :=
  hex8 (s.data.foldl (fun a c => (a * 131 + c.toNat) % 4294967296) 5381)

@[simp] theorem data_mk (l : List Char) : (String.mk l).data = l := rfl

theorem md5_8_data_length (s : String) : (md5_8 s).data.length = 8 := by
  simp [md5_8, hex8]

/-- Filename generated by `captureSingleSelector`:
`screenshot-${urlHash}-${selectorHash}-${timestamp}.${options.format}`. -/
def singleFilename (url sel ts fmt : String) : String :=
  "screenshot-" ++ md5_8 url ++ "-" ++ md5_8 sel ++ "-" ++ ts ++ "." ++ fmt

/-- Filename generated by `captureFullPage`:
`fullpage-${urlHash}-${timestamp}.${options.format}`. -/
def fullPageFilename (url ts fmt : String) : String :=
  "fullpage-" ++ md5_8 url ++ "-" ++ ts ++ "." ++ fmt

/-- Filename generated for entry `i` (0-based loop index) of
`captureMultipleSelectors`:
`multi-${urlHash}-${selectorHash}-${i + 1}-${timestamp}.${options.format}`. -/
def multiFilename (url sel : String) (i : Nat) (ts fmt : String) : String :=
  "multi-" ++ md5_8 url ++ "-" ++ md5_8 sel ++ "-" ++ decStr (i + 1) ++ "-" ++ ts ++ "." ++ fmt

/-- src/utils.js `generateUniqueFilename`:
`${prefix}-${timestamp}-${random}.${extension}`; the timestamp
(`new Date()`) and the six-character `Math.random` suffix are ambient
effects, passed here as the explicit arguments `ts` and `rand`. -/
def generateUniqueFilename (pre ext ts rand : String) : String :=
  pre ++ "-" ++ ts ++ "-" ++ rand ++ "." ++ ext

/-- Distinct indices give distinct multi-selector filenames, for any two
selectors of the batch, because the 1-based ordinal is embedded between
separators and everything before it has fixed width. -/
theorem multiFilename_index_inj {url s₁ s₂ ts fmt : String} {i j : Nat}
    (h : multiFilename url s₁ i ts fmt = multiFilename url s₂ j ts fmt) : i = j := by
  have hd := congrArg String.data h
  simp only [multiFilename, String.data_append, List.append_assoc] at hd
  have hd1 := List.append_cancel_left hd
  have hd2 := List.append_cancel_left hd1
  have hd3 := List.append_cancel_left hd2
  have hlen : (md5_8 s₁).data.length = (md5_8 s₂).data.length := by
    rw [md5_8_data_length, md5_8_data_length]
  have hd4 := (List.append_inj hd3 hlen).2
  have hd5 := List.append_cancel_left hd4
  have hd6 : (decStr (i + 1)).data = (decStr (j + 1)).data :=
    List.append_inj_left' hd5 rfl
  have : decStr (i + 1) = decStr (j + 1) := String.ext hd6
  have := decStr_inj this
  omega

/-- Distinct random suffixes give distinct `generateUniqueFilename`
outputs. -/
theorem generateUniqueFilename_rand_inj {pre ext ts r₁ r₂ : String}
    (hne : r₁ ≠ r₂) :
    generateUniqueFilename pre ext ts r₁ ≠ generateUniqueFilename pre ext ts r₂ := by
  intro h
  apply hne
  have hd := congrArg String.data h
  simp only [generateUniqueFilename, String.data_append, List.append_assoc] at hd
  have hd1 := List.append_cancel_left hd
  have hd2 := List.append_cancel_left hd1
  have hd3 := List.append_cancel_left hd2
  have hd4 := List.append_cancel_left hd3
  exact String.ext (List.append_inj_left' hd4 rfl)

/-- Distinct timestamps give distinct single-selector filenames: the
capture timestamp is the only varying component for a repeated
identical request. -/
theorem singleFilename_ts_inj {url sel ts₁ ts₂ fmt : String}
    (hne : ts₁ ≠ ts₂) :
    singleFilename url sel ts₁ fmt ≠ singleFilename url sel ts₂ fmt := by
  intro h
  apply hne
  have hd := congrArg String.data h
  simp only [singleFilename, String.data_append, List.append_assoc] at hd
  have hd1 := List.append_cancel_left hd
  have hd2 := List.append_cancel_left hd1
  have hd3 := List.append_cancel_left hd2
  have hd4 := List.append_cancel_left hd3
  have hd5 := List.append_cancel_left hd4
  exact String.ext (List.append_inj_left' hd5 rfl)

/-- A possibly-partial caller-supplied viewport object: each JS key may
be absent (`none`). -/
structure PartialViewport where
  width : Option Int
  height : Option Int
deriving DecidableEq

/-- A fully-resolved viewport. -/
structure Viewport where
  width : Int
  height : Int
deriving DecidableEq

/-- Caller-supplied options record for `takeScreenshot`; `none` models a
key absent from the JS object (the `browserOptions` key only carries
launch flags for the external engine and is not modelled). -/
structure Options where
  format : Option String := none
  quality : Option Nat := none
  fullPage : Option Bool := none
  waitForSelector : Option Bool := none
  timeout : Option Nat := none
  viewport : Option PartialViewport := none
  viewportWidth : Option Int := none
  viewportHeight : Option Int := none
  delay : Option Nat := none
deriving DecidableEq

/-- The merged options of `takeScreenshot`: every key present in
`defaultOptions` is concrete after the spread; `viewportWidth`,
`viewportHeight` default to `null` (`none`), and `delay` has no entry in
`defaultOptions`, so it stays exactly as supplied (`none` = undefined). -/
structure MergedOptions where
  format : String
  quality : Nat
  fullPage : Bool
  waitForSelector : Bool
  timeout : Nat
  viewport : Viewport
  viewportWidth : Option Int
  viewportHeight : Option Int
  delay : Option Nat
deriving DecidableEq

/-- Models `{ ...defaultOptions.viewport, ...options.viewport }`: field-by-field
merge of the viewport sub-object over the 1920x1080 default. -/
def mergeViewport (o : Option PartialViewport) : Viewport :=
  match o with
  | none => { width := 1920, height := 1080 }
  | some pv => { width := pv.width.getD 1920, height := pv.height.getD 1080 }

/-- Models `const mergedOptions = { ...defaultOptions, ...options };` followed by
the nested viewport merge (src/screenshot.js lines 17-47). -/
def mergeOptions (o : Options) : MergedOptions where
  format := o.format.getD "png"
  quality := o.quality.getD 90
  fullPage := o.fullPage.getD false
  waitForSelector := o.waitForSelector.getD true
  timeout := o.timeout.getD 30000
  viewport := mergeViewport o.viewport
  viewportWidth := o.viewportWidth
  viewportHeight := o.viewportHeight
  delay := o.delay

/-- The viewport-validation error message thrown at
src/screenshot.js line 56. -/
def viewportErrorMsg : String :=
  "Viewport dimensions must be between 100-3840 (width) and 100-2160 (height)"

/-- Custom-viewport handling (src/screenshot.js lines 49-61): only when
both `viewportWidth` and `viewportHeight` are truthy (present and
nonzero) are the dimensions validated and copied into the viewport;
otherwise the merged options pass through unchanged. -/
def applyCustomViewport (m : MergedOptions) : Except String MergedOptions :=
  match m.viewportWidth, m.viewportHeight with
  | some w, some h =>
    if w ≠ 0 ∧ h ≠ 0 then
      if w < 100 ∨ w > 3840 ∨ h < 100 ∨ h > 2160 then
        Except.error viewportErrorMsg
      else
        Except.ok { m with viewport := { width := w, height := h } }
    else Except.ok m
  | _, _ => Except.ok m

/-- Behaviour of the loaded page for one CSS selector: whether
`page.waitForSelector` finds it before the timeout, whether `page.$`
finds an element, whether `element.screenshot` throws (with which
message), and the byte size of the written file otherwise. -/
structure SelectorPage where
  appears : Bool
  found : Bool
  shotError : Option String
  bytes : Nat

/-- The external world of one `takeScreenshot` call: the puppeteer
engine, the target page, the clock.  `ts` is the
`new Date().toISOString().replace(...)` timestamp string taken inside
the capture routine. -/
structure Env where
  launchOk : Bool
  gotoError : Option String
  page : String → SelectorPage
  fullShotError : Option String
  fullPageBytes : Nat
  ts : String

/-- puppeteer's launch-failure message (external engine text). -/
def launchErrorMsg : String := "Failed to launch the browser process!"

/-- The `Element not found: ${selector}` error thrown when `page.$`
returns null (src/screenshot.js lines 176-183 and 258-260). -/
def elementNotFoundMsg (sel : String) : String := "Element not found: " ++ sel

/-- puppeteer's `page.waitForSelector` timeout message (external engine
text; the relevant property is that it speaks of a timeout, not of
`Element not found`). -/
def waitTimeoutMsg (sel : String) (t : Nat) : String :=
  "waiting for selector " ++ sel ++ " failed: timeout " ++ decStr t ++ "ms exceeded"

/-- puppeteer's `page.goto` navigation-timeout message (external engine
text). -/
def navTimeoutMsg (t : Nat) : String :=
  "Navigation timeout of " ++ decStr t ++ " ms exceeded"

/-- A chromium network-level failure message (external engine text). -/
def netErrorMsg (url : String) : String :=
  "net::ERR_NAME_NOT_RESOLVED at " ++ url

/-- Metadata of one written screenshot (the JS result also repeats the
path and a kilobyte rendering of the size; both are derived). -/
structure ShotMeta where
  filename : String
  bytes : Nat
deriving DecidableEq

/-- One per-selector entry of a multi-selector result. -/
structure SubResult where
  selector : String
  success : Bool
  filename : Option String
  bytes : Option Nat
  error : Option String
deriving DecidableEq

/-- The discriminated result of `takeScreenshot` (`type` field in JS). -/
inductive CaptureResult where
  | singleSelector (meta : ShotMeta)
  | fullPage (meta : ShotMeta)
  | multipleSelectors (totalSelectors successCount failureCount : Nat)
      (results : List SubResult)
deriving DecidableEq

/-- Embeds `captureFullPage` (src/screenshot.js lines 113-146). -/
def captureFullPage (env : Env) (url : String) (m : MergedOptions) :
    Except String CaptureResult :=
  match env.fullShotError with
  | some e => Except.error e
  | none =>
    Except.ok (CaptureResult.fullPage
      { filename := fullPageFilename url env.ts m.format, bytes := env.fullPageBytes })

/-- Embeds `captureSingleSelector` (src/screenshot.js lines 247-297): optional
wait, element lookup, screenshot, filename from url/selector hashes and
timestamp. -/
def captureSingleSelector (env : Env) (url sel : String) (m : MergedOptions) :
    Except String CaptureResult :=
  if m.waitForSelector && !(env.page sel).appears then
    Except.error (waitTimeoutMsg sel m.timeout)
  else if !(env.page sel).found then
    Except.error (elementNotFoundMsg sel)
  else
    match (env.page sel).shotError with
    | some e => Except.error e
    | none =>
      Except.ok (CaptureResult.singleSelector
        { filename := singleFilename url sel env.ts m.format
          bytes := (env.page sel).bytes })

/-- One iteration of the `captureMultipleSelectors` loop body
(src/screenshot.js lines 162-228): every failure - wait timeout, missing
element, screenshot error - is caught and recorded as a failed entry. -/
def multiSubResult (env : Env) (url : String) (m : MergedOptions)
    (i : Nat) (sel : String) : SubResult :=
  if m.waitForSelector && !(env.page sel).appears then
    { selector := sel, success := false, filename := none, bytes := none
      error := some (waitTimeoutMsg sel m.timeout) }
  else if !(env.page sel).found then
    { selector := sel, success := false, filename := none, bytes := none
      error := some (elementNotFoundMsg sel) }
  else
    match (env.page sel).shotError with
    | some e =>
      { selector := sel, success := false, filename := none, bytes := none
        error := some e }
    | none =>
      { selector := sel, success := true
        filename := some (multiFilename url sel i env.ts m.format)
        bytes := some (env.page sel).bytes, error := none }

/-- The indexed `for` loop of `captureMultipleSelectors`, accumulating
the `results` array in input order. -/
def multiLoop (env : Env) (url : String) (m : MergedOptions) :
    Nat → List String → List SubResult
  | _, [] => []
  | i, sel :: rest => multiSubResult env url m i sel :: multiLoop env url m (i + 1) rest

/-- Embeds `captureMultipleSelectors` (src/screenshot.js lines 156-237): one
timestamp taken before the loop, aggregate counts computed from the
collected results. -/
def captureMultipleSelectors (env : Env) (url : String) (sels : List String)
    (m : MergedOptions) : CaptureResult :=
  let results := multiLoop env url m 0 sels
  CaptureResult.multipleSelectors sels.length
    (results.filter (fun r => r.success)).length
    (results.filter (fun r => !r.success)).length
    results

/-- The `selector` argument of `takeScreenshot` is either a string or an
array of strings (`Array.isArray` dispatch). -/
inductive SelectorArg where
  | one (sel : String)
  | many (sels : List String)
deriving DecidableEq

/-- Observable steps of one `takeScreenshot` call, in program order. -/
inductive Event where
  | launch
  | newPage
  | setViewport
  | navigate
  | delayWait
  | runFullPage
  | runMulti
  | runSingle
  | closeBrowser
deriving DecidableEq

/-- Models `if (mergedOptions.delay && mergedOptions.delay > 0)`: an undefined
delay is falsy, a zero delay fails the comparison. -/
def delayActive (m : MergedOptions) : Bool :=
  match m.delay with
  | none => false
  | some d => decide (d > 0)

/-- Strategy dispatch (src/screenshot.js lines 83-94): full-page flag
first, then array selector, else single selector. -/
def runCapture (env : Env) (url : String) (sel : SelectorArg) (m : MergedOptions) :
    Event × Except String CaptureResult :=
  if m.fullPage then
    (Event.runFullPage, captureFullPage env url m)
  else
    match sel with
    | SelectorArg.many ss =>
      (Event.runMulti, Except.ok (captureMultipleSelectors env url ss m))
    | SelectorArg.one s =>
      (Event.runSingle, captureSingleSelector env url s m)

/-- The `try` body of `takeScreenshot` (src/screenshot.js lines 16-95):
merge options, validate a custom viewport, launch, open a page, set the
viewport, navigate, optionally delay, then dispatch to exactly one
capture strategy.  Returns the event trace and the outcome. -/
def takeScreenshotCore (env : Env) (url : String) (sel : SelectorArg) (o : Options) :
    List Event × Except String CaptureResult :=
  match applyCustomViewport (mergeOptions o) with
  | Except.error e => ([], Except.error e)
  | Except.ok m =>
    if env.launchOk then
      match env.gotoError with
      | some e => ([Event.launch, Event.newPage, Event.setViewport], Except.error e)
      | none =>
        ([Event.launch, Event.newPage, Event.setViewport, Event.navigate] ++
          (if delayActive m then [Event.delayWait] else []) ++
          [(runCapture env url sel m).1],
         (runCapture env url sel m).2)
    else ([], Except.error launchErrorMsg)

/-- Embeds `takeScreenshot` with its `finally` block (src/screenshot.js lines
96-104): if the `browser` variable was assigned (the launch happened),
`browser.close()` runs after the body, on success and on error alike. -/
def takeScreenshot (env : Env) (url : String) (sel : SelectorArg) (o : Options) :
    List Event × Except String CaptureResult :=
  let (tr, r) := takeScreenshotCore env url sel o
  (tr ++ (if Event.launch ∈ tr then [Event.closeBrowser] else []), r)

/-- The error classifier of the POST /screenshot handler
(src/server.js lines 465-491): first matching substring wins, the
fall-through is the generic internal failure. -/
inductive ErrorCategory where
  | elementNotFound
  | requestTimeout
  | networkError
  | invalidViewport
  | internalError
deriving DecidableEq

/-- Models the `error.message.includes(...)` cascade of the POST /screenshot catch
block. -/
def classifyError (msg : String) : ErrorCategory :=
  if strContains msg "Element not found" then ErrorCategory.elementNotFound
  else if strContains msg "timeout" then ErrorCategory.requestTimeout
  else if strContains msg "net::ERR_" then ErrorCategory.networkError
  else if strContains msg "Viewport dimensions" then ErrorCategory.invalidViewport
  else ErrorCategory.internalError

/-- Does the outcome carry exactly this thrown error message? -/
def isErrorMsg (r : Except String CaptureResult) (msg : String) : Bool :=
  match r with
  | Except.error e => e == msg
  | Except.ok _ => false

/-- The per-selector list of a multi-selector result (empty for the
other result kinds). -/
def multiResults : CaptureResult → List SubResult
  | CaptureResult.multipleSelectors _ _ _ rs => rs
  | _ => []

/-- The identity of a successful non-batch outcome. -/
def resultFilename : Except String CaptureResult → Option String
  | Except.ok (CaptureResult.singleSelector meta) => some meta.filename
  | Except.ok (CaptureResult.fullPage meta) => some meta.filename
  | _ => none

/-- Is the event the start of a capture strategy? -/
def isCaptureEvent : Event → Bool
  | Event.runFullPage => true
  | Event.runMulti => true
  | Event.runSingle => true
  | _ => false

/-- The strategy the precedence rule selects for a request shape. -/
def strategyFor (m : MergedOptions) (sel : SelectorArg) : Event :=
  if m.fullPage then Event.runFullPage
  else
    match sel with
    | SelectorArg.many _ => Event.runMulti
    | SelectorArg.one _ => Event.runSingle

theorem multiLoop_length (env : Env) (url : String) (m : MergedOptions) :
    ∀ i sels, (multiLoop env url m i sels).length = sels.length := by
  intro i sels
  induction sels generalizing i with
  | nil => rfl
  | cons s rest ih => simp [multiLoop, ih]

theorem multiLoop_getElem? (env : Env) (url : String) (m : MergedOptions) :
    ∀ i sels k, (multiLoop env url m i sels)[k]? =
      (sels[k]?).map (fun s => multiSubResult env url m (i + k) s) := by
  intro i sels
  induction sels generalizing i with
  | nil => intro k; rfl
  | cons s rest ih =>
    intro k
    match k with
    | 0 => simp [multiLoop]
    | k + 1 =>
      simp only [multiLoop, List.getElem?_cons_succ, ih (i + 1) k]
      have : i + 1 + k = i + (k + 1) := by omega
      rw [this]

theorem multiSubResult_selector (env : Env) (url : String) (m : MergedOptions)
    (i : Nat) (sel : String) : (multiSubResult env url m i sel).selector = sel := by
  unfold multiSubResult
  split
  · rfl
  · split
    · rfl
    · split <;> rfl

theorem multiSubResult_filename (env : Env) (url : String) (m : MergedOptions)
    (i : Nat) (sel : String) (f : String)
    (h : (multiSubResult env url m i sel).filename = some f) :
    f = multiFilename url sel i env.ts m.format := by
  unfold multiSubResult at h
  split at h
  · simp at h
  · split at h
    · simp at h
    · split at h
      · simp at h
      · simp at h
        exact h.symm

theorem length_filter_add_length_filter_not (l : List SubResult)
    (p : SubResult → Bool) :
    (l.filter p).length + (l.filter (fun r => !p r)).length = l.length := by
  induction l with
  | nil => rfl
  | cons a l ih =>
    by_cases h : p a <;> simp [List.filter_cons, h, ih] <;> omega

/-- Lemma: `applyCustomViewport` only ever rewrites the `viewport` field; every
other field survives, and so does the whole record on the pass-through
paths. -/
theorem applyCustomViewport_fields (m m' : MergedOptions)
    (h : applyCustomViewport m = Except.ok m') :
    m'.format = m.format ∧ m'.quality = m.quality ∧ m'.fullPage = m.fullPage ∧
    m'.waitForSelector = m.waitForSelector ∧ m'.timeout = m.timeout ∧
    m'.delay = m.delay := by
  unfold applyCustomViewport at h
  split at h
  · split at h
    · split at h
      · exact absurd h (by simp)
      · simp only [Except.ok.injEq] at h
        subst h
        exact ⟨rfl, rfl, rfl, rfl, rfl, rfl⟩
    · simp only [Except.ok.injEq] at h
      subst h
      exact ⟨rfl, rfl, rfl, rfl, rfl, rfl⟩
  · simp only [Except.ok.injEq] at h
    subst h
    exact ⟨rfl, rfl, rfl, rfl, rfl, rfl⟩

theorem takeScreenshot_viewport_error (env : Env) (url : String) (sel : SelectorArg)
    (o : Options) (e : String)
    (hv : applyCustomViewport (mergeOptions o) = Except.error e) :
    takeScreenshot env url sel o = ([], Except.error e) := by
  simp [takeScreenshot, takeScreenshotCore, hv]

theorem takeScreenshot_launch_fail (env : Env) (url : String) (sel : SelectorArg)
    (o : Options) (m : MergedOptions)
    (hv : applyCustomViewport (mergeOptions o) = Except.ok m)
    (hl : env.launchOk = false) :
    takeScreenshot env url sel o = ([], Except.error launchErrorMsg) := by
  simp [takeScreenshot, takeScreenshotCore, hv, hl]

theorem takeScreenshot_goto_error (env : Env) (url : String) (sel : SelectorArg)
    (o : Options) (m : MergedOptions) (e : String)
    (hv : applyCustomViewport (mergeOptions o) = Except.ok m)
    (hl : env.launchOk = true) (hg : env.gotoError = some e) :
    takeScreenshot env url sel o =
      ([Event.launch, Event.newPage, Event.setViewport, Event.closeBrowser],
        Except.error e) := by
  simp [takeScreenshot, takeScreenshotCore, hv, hl, hg]

theorem takeScreenshot_capture (env : Env) (url : String) (sel : SelectorArg)
    (o : Options) (m : MergedOptions)
    (hv : applyCustomViewport (mergeOptions o) = Except.ok m)
    (hl : env.launchOk = true) (hg : env.gotoError = none) :
    takeScreenshot env url sel o =
      ([Event.launch, Event.newPage, Event.setViewport, Event.navigate] ++
        (if delayActive m then [Event.delayWait] else []) ++
        [(runCapture env url sel m).1, Event.closeBrowser],
       (runCapture env url sel m).2) := by
  simp [takeScreenshot, takeScreenshotCore, hv, hl, hg, List.append_assoc]

/-- A page on which every selector matches and captures cleanly. -/
def pageOk : SelectorPage where
  appears := true
  found := true
  shotError := none
  bytes := 2048

/-- A page element that never appears and is never found. -/
def pageMissing : SelectorPage where
  appears := false
  found := false
  shotError := none
  bytes := 0

def url0 : String := "https://example.com"

def ts0 : String := "2026-10-11T12-00-00-000Z"

/-- A benign environment: launch and navigation succeed, every selector
resolves. -/
def env0 : Env where
  launchOk := true
  gotoError := none
  page := fun _ => pageOk
  fullShotError := none
  fullPageBytes := 4096
  ts := ts0

/-- Same world as `env0` except that the page bytes of a full-page shot
differ: a second, independent request at the same clock reading. -/
def env1 : Env := { env0 with fullPageBytes := 9999 }

/-- Variant of `env0` with one selector, `#nope`, absent from the page. -/
def envMissing : Env :=
  { env0 with page := fun s => if s == "#nope" then pageMissing else pageOk }

/-- A request supplying only a custom width of 50 (spec scenario 4). -/
def opts50 : Options := { viewportWidth := some 50 }

/-- Claim C1: for every multi-selector request of length N that reaches
the capture stage, takeScreenshot returns a multipleSelectors result
whose per-selector list has exactly N entries in input order, with
totalSelectors = N and successCount + failureCount = N; a failing
selector is recorded as a sub-result and the remaining selectors are
still processed (every input position has its entry). -/
theorem multi_selector_batch_shape (env : Env) (url : String) (sels : List String)
    (o : Options) (m : MergedOptions)
    (hv : applyCustomViewport (mergeOptions o) = Except.ok m)
    (hfp : m.fullPage = false)
    (hl : env.launchOk = true) (hg : env.gotoError = none) :
    ∃ results : List SubResult,
      (takeScreenshot env url (SelectorArg.many sels) o).2 =
        Except.ok (CaptureResult.multipleSelectors sels.length
          (results.filter (fun r => r.success)).length
          (results.filter (fun r => !r.success)).length results) ∧
      results.length = sels.length ∧
      (∀ k : Nat, (results[k]?).map (fun r => r.selector) = sels[k]?) ∧
      (results.filter (fun r => r.success)).length +
        (results.filter (fun r => !r.success)).length = sels.length := by
  refine ⟨multiLoop env url m 0 sels, ?_, multiLoop_length env url m 0 sels, ?_, ?_⟩
  · rw [takeScreenshot_capture env url (SelectorArg.many sels) o m hv hl hg]
    simp [runCapture, hfp, captureMultipleSelectors]
  · intro k
    rw [multiLoop_getElem?]
    cases h : sels[k]? with
    | none => rfl
    | some s => simp [multiSubResult_selector]
  · rw [length_filter_add_length_filter_not, multiLoop_length]

theorem multi_selector_batch_shape_witness :
    applyCustomViewport (mergeOptions {}) = Except.ok (mergeOptions {}) ∧
    (mergeOptions {}).fullPage = false ∧
    envMissing.launchOk = true ∧
    envMissing.gotoError = none ∧
    (∃ results : List SubResult,
      (takeScreenshot envMissing url0 (SelectorArg.many ["h1", "#nope"]) {}).2 =
        Except.ok (CaptureResult.multipleSelectors (["h1", "#nope"] : List String).length
          (results.filter (fun r => r.success)).length
          (results.filter (fun r => !r.success)).length results) ∧
      results.length = (["h1", "#nope"] : List String).length ∧
      (∀ k : Nat, (results[k]?).map (fun r => r.selector) = (["h1", "#nope"] : List String)[k]?) ∧
      (results.filter (fun r => r.success)).length +
        (results.filter (fun r => !r.success)).length =
          (["h1", "#nope"] : List String).length) :=
  ⟨rfl, rfl, rfl, rfl,
    multi_selector_batch_shape envMissing url0 ["h1", "#nope"] {} (mergeOptions {})
      rfl rfl rfl rfl⟩

/-- Claim C2 counterexample: a request supplying only `viewportWidth: 50`
(no height) does not fail with the viewport error; the browser is
launched and navigation happens. -/
theorem width_only_not_validated :
    isErrorMsg (takeScreenshot env0 url0 (SelectorArg.one "h1") opts50).2
      viewportErrorMsg = false ∧
    Event.launch ∈ (takeScreenshot env0 url0 (SelectorArg.one "h1") opts50).1 ∧
    Event.navigate ∈ (takeScreenshot env0 url0 (SelectorArg.one "h1") opts50).1 := by
  decide

/-- Claim C2 (amended): when custom viewport width AND height are both
supplied (nonzero) and either is out of range, takeScreenshot fails with
the InvalidViewport error on an empty event trace: no browser launch, no
navigation. -/
theorem out_of_range_viewport_rejected (env : Env) (url : String) (sel : SelectorArg)
    (o : Options) (w h : Int)
    (hw : o.viewportWidth = some w) (hh : o.viewportHeight = some h)
    (hw0 : w ≠ 0) (hh0 : h ≠ 0)
    (hout : w < 100 ∨ w > 3840 ∨ h < 100 ∨ h > 2160) :
    takeScreenshot env url sel o = ([], Except.error viewportErrorMsg) := by
  apply takeScreenshot_viewport_error
  have hw' : (mergeOptions o).viewportWidth = some w := hw
  have hh' : (mergeOptions o).viewportHeight = some h := hh
  unfold applyCustomViewport
  rw [hw', hh']
  simp [hw0, hh0, hout]

theorem out_of_range_viewport_rejected_witness :
    ({ viewportWidth := some 50, viewportHeight := some 500 } : Options).viewportWidth
        = some 50 ∧
    ({ viewportWidth := some 50, viewportHeight := some 500 } : Options).viewportHeight
        = some 500 ∧
    (50 : Int) ≠ 0 ∧ (500 : Int) ≠ 0 ∧
    ((50 : Int) < 100 ∨ (50 : Int) > 3840 ∨ (500 : Int) < 100 ∨ (500 : Int) > 2160) ∧
    takeScreenshot env0 url0 (SelectorArg.one "h1")
        { viewportWidth := some 50, viewportHeight := some 500 } =
      ([], Except.error viewportErrorMsg) :=
  ⟨rfl, rfl, by decide, by decide, by decide,
    out_of_range_viewport_rejected env0 url0 (SelectorArg.one "h1")
      { viewportWidth := some 50, viewportHeight := some 500 } 50 500 rfl rfl
      (by decide) (by decide) (by decide)⟩

/-- Claim C3 counterexample: with wait-for-selector enabled (the
default) and a selector that never matches, the request fails with the
wait-timeout error, which the classifier maps to RequestTimeout - not
with the ElementNotFound error. -/
theorem missing_selector_times_out :
    isErrorMsg (takeScreenshot envMissing url0 (SelectorArg.one "#nope") {}).2
      (waitTimeoutMsg "#nope" 30000) = true ∧
    isErrorMsg (takeScreenshot envMissing url0 (SelectorArg.one "#nope") {}).2
      (elementNotFoundMsg "#nope") = false ∧
    classifyError (waitTimeoutMsg "#nope" 30000) = ErrorCategory.requestTimeout ∧
    ErrorCategory.requestTimeout ≠ ErrorCategory.elementNotFound := by
  decide

/-- Claim C3 (amended): with wait-for-selector enabled and a selector
that never appears, the single-selector request fails with the wait
timeout error (classified RequestTimeout, distinct from the
ElementNotFound classification of the `Element not found` message); in
multi-selector mode the same situation yields a failed first sub-result
while the batch still completes with one entry per input selector. -/
theorem missing_selector_wait_behaviour (env : Env) (url s : String)
    (o : Options) (m : MergedOptions)
    (hv : applyCustomViewport (mergeOptions o) = Except.ok m)
    (hfp : m.fullPage = false)
    (hw : m.waitForSelector = true)
    (hnever : (env.page s).appears = false)
    (hl : env.launchOk = true) (hg : env.gotoError = none) :
    (takeScreenshot env url (SelectorArg.one s) o).2 =
      Except.error (waitTimeoutMsg s m.timeout) ∧
    classifyError (waitTimeoutMsg "#nope" 30000) = ErrorCategory.requestTimeout ∧
    classifyError (elementNotFoundMsg "#nope") = ErrorCategory.elementNotFound ∧
    ∀ rest : List String,
      ∃ results : List SubResult,
        (takeScreenshot env url (SelectorArg.many (s :: rest)) o).2 =
          Except.ok (CaptureResult.multipleSelectors (rest.length + 1)
            (results.filter (fun r => r.success)).length
            (results.filter (fun r => !r.success)).length results) ∧
        results.length = rest.length + 1 ∧
        (results[0]?).map (fun r => r.success) = some false := by
  refine ⟨?_, by decide, by decide, ?_⟩
  · rw [takeScreenshot_capture env url (SelectorArg.one s) o m hv hl hg]
    simp [runCapture, hfp, captureSingleSelector, hw, hnever]
  · intro rest
    refine ⟨multiLoop env url m 0 (s :: rest), ?_, ?_, ?_⟩
    · rw [takeScreenshot_capture env url (SelectorArg.many (s :: rest)) o m hv hl hg]
      simp [runCapture, hfp, captureMultipleSelectors]
    · rw [multiLoop_length]
      simp
    · simp [multiLoop, multiSubResult, hw, hnever]

theorem missing_selector_wait_behaviour_witness :
    applyCustomViewport (mergeOptions {}) = Except.ok (mergeOptions {}) ∧
    (mergeOptions {}).fullPage = false ∧
    (mergeOptions {}).waitForSelector = true ∧
    (envMissing.page "#nope").appears = false ∧
    envMissing.launchOk = true ∧ envMissing.gotoError = none ∧
    ((takeScreenshot envMissing url0 (SelectorArg.one "#nope") {}).2 =
      Except.error (waitTimeoutMsg "#nope" (mergeOptions {}).timeout) ∧
    classifyError (waitTimeoutMsg "#nope" 30000) = ErrorCategory.requestTimeout ∧
    classifyError (elementNotFoundMsg "#nope") = ErrorCategory.elementNotFound ∧
    ∀ rest : List String,
      ∃ results : List SubResult,
        (takeScreenshot envMissing url0 (SelectorArg.many ("#nope" :: rest)) {}).2 =
          Except.ok (CaptureResult.multipleSelectors (rest.length + 1)
            (results.filter (fun r => r.success)).length
            (results.filter (fun r => !r.success)).length results) ∧
        results.length = rest.length + 1 ∧
        (results[0]?).map (fun r => r.success) = some false) :=
  ⟨rfl, rfl, rfl, by decide, rfl, rfl,
    missing_selector_wait_behaviour envMissing url0 "#nope" {} (mergeOptions {})
      rfl rfl rfl (by decide) rfl rfl⟩

@[simp] theorem isCaptureEvent_launch : isCaptureEvent Event.launch = false := rfl

@[simp] theorem isCaptureEvent_newPage : isCaptureEvent Event.newPage = false := rfl

@[simp] theorem isCaptureEvent_setViewport : isCaptureEvent Event.setViewport = false := rfl

@[simp] theorem isCaptureEvent_navigate : isCaptureEvent Event.navigate = false := rfl

@[simp] theorem isCaptureEvent_delayWait : isCaptureEvent Event.delayWait = false := rfl

@[simp] theorem isCaptureEvent_closeBrowser :
    isCaptureEvent Event.closeBrowser = false := rfl

/-- Claim C4: on every exit path of takeScreenshot, if the browser was
launched then the very last observable step is the browser shutdown,
and if it never launched no shutdown is attempted (there is nothing to
close). -/
theorem browser_always_closed (env : Env) (url : String) (sel : SelectorArg)
    (o : Options) :
    (Event.launch ∈ (takeScreenshot env url sel o).1 →
      (takeScreenshot env url sel o).1.getLast? = some Event.closeBrowser) ∧
    (Event.launch ∉ (takeScreenshot env url sel o).1 →
      Event.closeBrowser ∉ (takeScreenshot env url sel o).1) := by
  rcases hv : applyCustomViewport (mergeOptions o) with e | m
  · rw [takeScreenshot_viewport_error env url sel o e hv]
    simp
  · cases hl : env.launchOk with
    | false =>
      rw [takeScreenshot_launch_fail env url sel o m hv hl]
      simp
    | true =>
      rcases hg : env.gotoError with _ | e
      · rw [takeScreenshot_capture env url sel o m hv hl hg]
        constructor
        · intro _
          rw [show [(runCapture env url sel m).1, Event.closeBrowser] =
              [(runCapture env url sel m).1] ++ [Event.closeBrowser] from rfl,
            ← List.append_assoc, List.getLast?_concat]
        · intro hmem
          exact absurd (by simp) hmem
      · rw [takeScreenshot_goto_error env url sel o m e hv hl hg]
        constructor
        · intro _
          rfl
        · intro hmem
          exact absurd (by simp) hmem

theorem browser_always_closed_witness :
    Event.launch ∈ (takeScreenshot env0 url0 (SelectorArg.one "h1") opts50).1 ∧
    (takeScreenshot env0 url0 (SelectorArg.one "h1") opts50).1.getLast? =
      some Event.closeBrowser :=
  ⟨by decide,
    (browser_always_closed env0 url0 (SelectorArg.one "h1") opts50).1 (by decide)⟩

/-- At most one capture strategy starts in any run of takeScreenshot. -/
theorem capture_events_at_most_one (env : Env) (url : String) (sel : SelectorArg)
    (o : Options) :
    ((takeScreenshot env url sel o).1.filter isCaptureEvent).length ≤ 1 := by
  rcases hv : applyCustomViewport (mergeOptions o) with e | m
  · rw [takeScreenshot_viewport_error env url sel o e hv]
    simp
  · cases hl : env.launchOk with
    | false =>
      rw [takeScreenshot_launch_fail env url sel o m hv hl]
      simp
    | true =>
      rcases hg : env.gotoError with _ | e
      · rw [takeScreenshot_capture env url sel o m hv hl hg]
        cases h : isCaptureEvent (runCapture env url sel m).1 <;>
          cases hd : delayActive m <;>
            simp [List.filter_append, List.filter_cons, hd, h]
      · rw [takeScreenshot_goto_error env url sel o m e hv hl hg]
        simp [List.filter_cons]

/-- The dispatched strategy is the one the precedence rule names. -/
theorem runCapture_strategy (env : Env) (url : String) (sel : SelectorArg)
    (m : MergedOptions) : (runCapture env url sel m).1 = strategyFor m sel := by
  unfold runCapture strategyFor
  cases hfp : m.fullPage
  · cases sel <;> simp
  · simp

/-- Claim C5: on a run that reaches the capture stage, exactly one
capture strategy executes, and it is the one chosen by the precedence
full-page flag, then list selector, then single selector; in every run
whatsoever, at most one strategy executes. -/
theorem exactly_one_strategy (env : Env) (url : String) (sel : SelectorArg)
    (o : Options) (m : MergedOptions)
    (hv : applyCustomViewport (mergeOptions o) = Except.ok m)
    (hl : env.launchOk = true) (hg : env.gotoError = none) :
    (takeScreenshot env url sel o).1.filter isCaptureEvent = [strategyFor m sel] ∧
    ∀ (env₂ : Env) (url₂ : String) (sel₂ : SelectorArg) (o₂ : Options),
      ((takeScreenshot env₂ url₂ sel₂ o₂).1.filter isCaptureEvent).length ≤ 1 := by
  refine ⟨?_, fun env₂ url₂ sel₂ o₂ => capture_events_at_most_one env₂ url₂ sel₂ o₂⟩
  rw [takeScreenshot_capture env url sel o m hv hl hg]
  have hs : isCaptureEvent (strategyFor m sel) = true := by
    unfold strategyFor
    cases m.fullPage
    · cases sel <;> simp [isCaptureEvent]
    · simp [isCaptureEvent]
  cases hd : delayActive m <;>
    simp [List.filter_append, List.filter_cons, hd, runCapture_strategy, hs]

theorem exactly_one_strategy_witness :
    applyCustomViewport (mergeOptions {}) = Except.ok (mergeOptions {}) ∧
    env0.launchOk = true ∧ env0.gotoError = none ∧
    ((takeScreenshot env0 url0 (SelectorArg.one "h1") {}).1.filter isCaptureEvent =
      [strategyFor (mergeOptions {}) (SelectorArg.one "h1")] ∧
    ∀ (env₂ : Env) (url₂ : String) (sel₂ : SelectorArg) (o₂ : Options),
      ((takeScreenshot env₂ url₂ sel₂ o₂).1.filter isCaptureEvent).length ≤ 1) :=
  ⟨rfl, rfl, rfl,
    exactly_one_strategy env0 url0 (SelectorArg.one "h1") {} (mergeOptions {})
      rfl rfl rfl⟩

/-- Claim C6 counterexample: the merged options give `delay` no default
entry: for an empty options record the merged `delay` is undefined
(`none`), not the concrete value 0 the claim asserts. -/
theorem merged_delay_has_no_default :
    (mergeOptions {}).delay = none ∧ (mergeOptions {}).delay ≠ some 0 := by
  decide

/-- Claim C6 (amended): the option resolver defaults format to png,
quality to 90, timeout to 30000, wait-for-selector to true and the
viewport to 1920x1080; top-level fields are overridden individually and
the viewport sub-object is merged field-by-field, so supplying only a
width preserves the default height; `delay` has no default entry and
passes through as supplied, and an absent delay drives the pipeline
exactly like an explicit 0 (no delay wait). -/
theorem option_resolver_contract :
    mergeOptions {} =
      { format := "png", quality := 90, fullPage := false, waitForSelector := true,
        timeout := 30000, viewport := { width := 1920, height := 1080 },
        viewportWidth := none, viewportHeight := none, delay := none } ∧
    (∀ w : Int,
      (mergeOptions { viewport := some { width := some w, height := none } }).viewport =
        { width := w, height := 1080 }) ∧
    (∀ f : String, ∀ q : Nat,
      mergeOptions { format := some f, quality := some q } =
        { format := f, quality := q, fullPage := false, waitForSelector := true,
          timeout := 30000, viewport := { width := 1920, height := 1080 },
          viewportWidth := none, viewportHeight := none, delay := none }) ∧
    (∀ o : Options, (mergeOptions o).delay = o.delay) ∧
    (∀ o : Options,
      delayActive (mergeOptions { o with delay := none }) = false ∧
      delayActive (mergeOptions { o with delay := some 0 }) = false) :=
  ⟨rfl, fun _ => rfl, fun _ _ => rfl, fun _ => rfl, fun _ => ⟨rfl, rfl⟩⟩

/-- Claim C7: the classifier maps every thrown failure to exactly one of
the five categories, by the substring cascade of the catch block (first
match wins, InternalError is the fall-through), and the pipeline's
representative failures land in the documented categories: the
element-lookup miss in ElementNotFound, the navigation timeout and the
wait timeout in RequestTimeout, the engine network failure in
NetworkError, the viewport validation message in InvalidViewport, and
the launch failure in InternalError. -/
theorem classifier_partitions (msg : String) :
    (classifyError msg = ErrorCategory.elementNotFound ↔
      strContains msg "Element not found" = true) ∧
    (classifyError msg = ErrorCategory.requestTimeout ↔
      (strContains msg "Element not found" = false ∧
        strContains msg "timeout" = true)) ∧
    (classifyError msg = ErrorCategory.networkError ↔
      (strContains msg "Element not found" = false ∧
        strContains msg "timeout" = false ∧
        strContains msg "net::ERR_" = true)) ∧
    (classifyError msg = ErrorCategory.invalidViewport ↔
      (strContains msg "Element not found" = false ∧
        strContains msg "timeout" = false ∧
        strContains msg "net::ERR_" = false ∧
        strContains msg "Viewport dimensions" = true)) ∧
    (classifyError msg = ErrorCategory.internalError ↔
      (strContains msg "Element not found" = false ∧
        strContains msg "timeout" = false ∧
        strContains msg "net::ERR_" = false ∧
        strContains msg "Viewport dimensions" = false)) ∧
    classifyError (elementNotFoundMsg "#app") = ErrorCategory.elementNotFound ∧
    classifyError (navTimeoutMsg 30000) = ErrorCategory.requestTimeout ∧
    classifyError (waitTimeoutMsg "#app" 30000) = ErrorCategory.requestTimeout ∧
    classifyError (netErrorMsg "https://nope.invalid") = ErrorCategory.networkError ∧
    classifyError viewportErrorMsg = ErrorCategory.invalidViewport ∧
    classifyError launchErrorMsg = ErrorCategory.internalError := by
  refine ⟨?_, ?_, ?_, ?_, ?_,
    by set_option maxRecDepth 4096 in decide,
    by set_option maxRecDepth 4096 in decide,
    by set_option maxRecDepth 4096 in decide,
    by set_option maxRecDepth 4096 in decide,
    by set_option maxRecDepth 4096 in decide,
    by set_option maxRecDepth 4096 in decide⟩ <;>
    cases h1 : strContains msg "Element not found" <;>
      cases h2 : strContains msg "timeout" <;>
        cases h3 : strContains msg "net::ERR_" <;>
          cases h4 : strContains msg "Viewport dimensions" <;>
            simp [classifyError, h1, h2, h3, h4]

/-- Claim C8 counterexample: issuing the same single-selector request
twice in environments that agree on the clock reading (two requests
within the same timestamp tick) produces the same identity - the
identity carries no random suffix, so repetition alone does not
guarantee distinctness. -/
theorem repeated_request_identity_collision :
    resultFilename (takeScreenshot env0 url0 (SelectorArg.one "h1") {}).2 =
      resultFilename (takeScreenshot env1 url0 (SelectorArg.one "h1") {}).2 ∧
    (resultFilename (takeScreenshot env0 url0 (SelectorArg.one "h1") {}).2).isSome
      = true := by
  decide

/-- Claim C8 (amended): only utils.js generateUniqueFilename carries a
random suffix, and distinct suffixes there do give distinct identities;
the capture pipeline's identity is fully determined by the URL hash,
selector hash, capture timestamp and format - so two identical requests
get distinct identities exactly when their capture timestamps differ. -/
theorem identity_generation_contract :
    (∀ pre ext ts r₁ r₂ : String, r₁ ≠ r₂ →
      generateUniqueFilename pre ext ts r₁ ≠ generateUniqueFilename pre ext ts r₂) ∧
    (∀ (env : Env) (url s : String) (m : MergedOptions) (meta : ShotMeta),
      captureSingleSelector env url s m =
          Except.ok (CaptureResult.singleSelector meta) →
      meta.filename = singleFilename url s env.ts m.format) ∧
    (∀ url s ts₁ ts₂ fmt : String, ts₁ ≠ ts₂ →
      singleFilename url s ts₁ fmt ≠ singleFilename url s ts₂ fmt) := by
  refine ⟨fun pre ext ts r₁ r₂ hne => generateUniqueFilename_rand_inj hne, ?_,
    fun url s ts₁ ts₂ fmt hne => singleFilename_ts_inj hne⟩
  intro env url s m meta h
  unfold captureSingleSelector at h
  split at h
  · simp at h
  · split at h
    · simp at h
    · split at h
      · simp at h
      · simp only [Except.ok.injEq, CaptureResult.singleSelector.injEq] at h
        rw [← h]

theorem identity_generation_contract_witness :
    generateUniqueFilename "screenshot" "png" ts0 "abc123" ≠
      generateUniqueFilename "screenshot" "png" ts0 "xyz789" ∧
    singleFilename url0 "h1" "2026-10-11T12-00-00-000Z" "png" ≠
      singleFilename url0 "h1" "2026-10-11T12-00-00-001Z" "png" ∧
    ({ filename := singleFilename url0 "h1" env0.ts (mergeOptions {}).format
       bytes := 2048 } : ShotMeta).filename =
      singleFilename url0 "h1" env0.ts (mergeOptions {}).format :=
  ⟨identity_generation_contract.1 "screenshot" "png" ts0 "abc123" "xyz789" (by decide),
    identity_generation_contract.2.2 url0 "h1" "2026-10-11T12-00-00-000Z"
      "2026-10-11T12-00-00-001Z" "png" (by decide),
    identity_generation_contract.2.1 env0 url0 "h1" (mergeOptions {})
      { filename := singleFilename url0 "h1" env0.ts (mergeOptions {}).format
        bytes := 2048 } rfl⟩

/-- Claim C9: with the full-page flag set, takeScreenshot never reads
the selector argument: any two selector values (a list, a string, valid
or not) give identical traces and results, and a successful outcome is
always of the fullPage kind. -/
theorem fullpage_ignores_selector (env : Env) (url : String) (o : Options)
    (sel₁ sel₂ : SelectorArg)
    (hfp : (mergeOptions o).fullPage = true) :
    takeScreenshot env url sel₁ o = takeScreenshot env url sel₂ o ∧
    ∀ r : CaptureResult,
      (takeScreenshot env url sel₁ o).2 = Except.ok r →
      ∃ meta : ShotMeta, r = CaptureResult.fullPage meta := by
  rcases hv : applyCustomViewport (mergeOptions o) with e | m
  · rw [takeScreenshot_viewport_error env url sel₁ o e hv,
      takeScreenshot_viewport_error env url sel₂ o e hv]
    exact ⟨rfl, fun r h => by simp at h⟩
  · have hfp' : m.fullPage = true := by
      rw [(applyCustomViewport_fields (mergeOptions o) m hv).2.2.1, hfp]
    cases hl : env.launchOk with
    | false =>
      rw [takeScreenshot_launch_fail env url sel₁ o m hv hl,
        takeScreenshot_launch_fail env url sel₂ o m hv hl]
      exact ⟨rfl, fun r h => by simp at h⟩
    | true =>
      rcases hg : env.gotoError with _ | e
      · rw [takeScreenshot_capture env url sel₁ o m hv hl hg,
          takeScreenshot_capture env url sel₂ o m hv hl hg]
        constructor
        · simp [runCapture, hfp']
        · intro r h
          simp only [runCapture, hfp', if_true] at h
          unfold captureFullPage at h
          split at h
          · simp at h
          · simp only [Except.ok.injEq] at h
            exact ⟨_, h.symm⟩
      · rw [takeScreenshot_goto_error env url sel₁ o m e hv hl hg,
          takeScreenshot_goto_error env url sel₂ o m e hv hl hg]
        exact ⟨rfl, fun r h => by simp at h⟩

theorem fullpage_ignores_selector_witness :
    (mergeOptions { fullPage := some true } : MergedOptions).fullPage = true ∧
    (takeScreenshot env0 url0 (SelectorArg.one "]]]not-a-selector")
        { fullPage := some true } =
      takeScreenshot env0 url0 (SelectorArg.many []) { fullPage := some true } ∧
    ∀ r : CaptureResult,
      (takeScreenshot env0 url0 (SelectorArg.one "]]]not-a-selector")
          { fullPage := some true }).2 = Except.ok r →
      ∃ meta : ShotMeta, r = CaptureResult.fullPage meta) :=
  ⟨rfl,
    fullpage_ignores_selector env0 url0 { fullPage := some true }
      (SelectorArg.one "]]]not-a-selector") (SelectorArg.many []) rfl⟩

/-- Claim C10: within one multi-selector batch all generated filenames
are pairwise distinct, even for a duplicated selector string: every
filename embeds the 1-based ordinal of its position, the whole batch
shares one timestamp, and everything before the ordinal has fixed
width. -/
theorem batch_filenames_pairwise_distinct (env : Env) (url : String)
    (m : MergedOptions) (sels : List String) (i j : Nat) (ri rj : SubResult)
    (fi fj : String) (hij : i ≠ j)
    (hi : (multiResults (captureMultipleSelectors env url sels m))[i]? = some ri)
    (hj : (multiResults (captureMultipleSelectors env url sels m))[j]? = some rj)
    (hfi : ri.filename = some fi) (hfj : rj.filename = some fj) :
    fi ≠ fj := by
  have hmr : multiResults (captureMultipleSelectors env url sels m) =
      multiLoop env url m 0 sels := rfl
  rw [hmr, multiLoop_getElem?] at hi hj
  rcases Option.map_eq_some'.mp hi with ⟨si, hsi, hri⟩
  rcases Option.map_eq_some'.mp hj with ⟨sj, hsj, hrj⟩
  have hfi' : fi = multiFilename url si i env.ts m.format := by
    have := multiSubResult_filename env url m (0 + i) si fi (by rw [hri]; exact hfi)
    simpa using this
  have hfj' : fj = multiFilename url sj j env.ts m.format := by
    have := multiSubResult_filename env url m (0 + j) sj fj (by rw [hrj]; exact hfj)
    simpa using this
  intro heq
  apply hij
  have hmf : multiFilename url si i env.ts m.format =
      multiFilename url sj j env.ts m.format := by
    rw [← hfi', ← hfj']
    exact heq
  exact multiFilename_index_inj hmf

theorem batch_filenames_pairwise_distinct_witness :
    (0 : Nat) ≠ 1 ∧
    (multiResults (captureMultipleSelectors env0 url0 ["h1", "h1"]
        (mergeOptions {})))[0]? =
      some (multiSubResult env0 url0 (mergeOptions {}) 0 "h1") ∧
    (multiResults (captureMultipleSelectors env0 url0 ["h1", "h1"]
        (mergeOptions {})))[1]? =
      some (multiSubResult env0 url0 (mergeOptions {}) 1 "h1") ∧
    (multiSubResult env0 url0 (mergeOptions {}) 0 "h1").filename =
      some (multiFilename url0 "h1" 0 ts0 "png") ∧
    (multiSubResult env0 url0 (mergeOptions {}) 1 "h1").filename =
      some (multiFilename url0 "h1" 1 ts0 "png") ∧
    multiFilename url0 "h1" 0 ts0 "png" ≠ multiFilename url0 "h1" 1 ts0 "png" :=
  ⟨by decide, rfl, rfl, rfl, rfl,
    batch_filenames_pairwise_distinct env0 url0 (mergeOptions {}) ["h1", "h1"]
      0 1 (multiSubResult env0 url0 (mergeOptions {}) 0 "h1")
      (multiSubResult env0 url0 (mergeOptions {}) 1 "h1")
      (multiFilename url0 "h1" 0 ts0 "png") (multiFilename url0 "h1" 1 ts0 "png")
      (by decide) rfl rfl rfl rfl⟩

end ElementScreenshot
